/- Verification of the project/task management backend (FastAPI + SQLAlchemy):
   shallow embedding of app/models.py, app/schemas.py, app/crud.py,
   app/dependencies.py and the route handlers of app/main.py, followed by
   theorems about the credential-lifecycle subsystem. -/
import Mathlib

namespace GestionProjet

/-- Python strings are modelled as lists of characters. -/
abbrev Str := List Char

/-- ASCII lower-casing of one character; models Python str.lower on the ASCII
range (all characters compared by this development are ASCII). -/
def asciiLower (c : Char) : Char :=
  if 'A' ≤ c ∧ c ≤ 'Z' then Char.ofNat (c.toNat + 32) else c

/-- Models Python str.lower applied to a whole string. -/
def lowerStr (s : Str) : Str := s.map asciiLower

/-- Models Python str.startswith: the first argument is the pattern. -/
def listStartsWith : Str → Str → Bool
  | [], _ => true
  | _ :: _, [] => false
  | p :: ps, c :: cs => p == c && listStartsWith ps cs

/-- Models Python c.islower() restricted to ASCII (main.py:378). -/
def pyIsLower (c : Char) : Bool := decide ('a' ≤ c ∧ c ≤ 'z')

/-- Models Python c.isupper() restricted to ASCII (main.py:384). -/
def pyIsUpper (c : Char) : Bool := decide ('A' ≤ c ∧ c ≤ 'Z')

/-- Models Python c.isdigit() restricted to ASCII (main.py:390). -/
def pyIsDigit (c : Char) : Bool := decide ('0' ≤ c ∧ c ≤ '9')

def has_lower (s : Str) : Bool := s.any pyIsLower

def has_upper (s : Str) : Bool := s.any pyIsUpper

def has_digit (s : Str) : Bool := s.any pyIsDigit

deriving instance DecidableEq for Except

/-- Python exceptions that the embedded code can raise. -/
inductive PyError
  | attributeError
  | typeError
  | unknownHashError
deriving DecidableEq

/-- Structured HTTP error responses produced by the route handlers. -/
inductive HttpErr
  | dupEmail
  | dupUsername
  | policyTooShort
  | policyNoLower
  | policyNoUpper
  | policyNoDigit
  | invalidOrExpiredToken
  | serverError
deriving DecidableEq

/- ===== Credential hasher (crud.py:9-17, passlib CryptContext with bcrypt) ===== -/

/-- Modelled from passlib/bcrypt (external library): a bcrypt hash embeds its
parameters and salt in the prefix; the digest itself is abstracted as an
injective function of the salt and the password (the tail of the string).
The output keeps the real format marker so that hash identification works. -/
def bcryptHashWith (salt p : Str) : Str :=
  ("$2b$12$").toList ++ salt ++ ('$' :: p)

/-- Modelled from passlib/bcrypt: extracts the embedded salt from a hash
(the characters after the "$2b$12$" prefix, up to the next separator). -/
def bcryptSaltOf (h : Str) : Str := (h.drop 7).takeWhile (fun c => c ≠ '$')

/-- Modelled from passlib/bcrypt: verification recomputes the hash with the
embedded salt and compares. -/
def bcryptVerify (p h : Str) : Bool := h == bcryptHashWith (bcryptSaltOf h) p

/-- Modelled from passlib: the bcrypt handler identifies a candidate hash by
its format marker ("$2$", "$2a$", "$2b$", "$2x$", "$2y$"). -/
def bcryptIdentify (h : Str) : Bool :=
  [("$2a$"), ("$2b$"), ("$2x$"), ("$2y$"), ("$2$")].any
    (fun pre => listStartsWith pre.toList h)

/-- Embeds pwd_context.verify where pwd_context = CryptContext(schemes=["bcrypt"])
(crud.py:9). Modelled from passlib's documented behavior: a hash that cannot
be identified raises UnknownHashError (a ValueError); an identified hash is
verified and the boolean result returned. -/
def pwd_context_verify (p h : Str) : Except PyError Bool :=
  if bcryptIdentify h then .ok (bcryptVerify p h) else .error .unknownHashError

/-- Embeds crud.verify_password (crud.py:15-17): a bare delegation to
pwd_context.verify with no exception handling, so any error propagates. -/
def verify_password (p h : Str) : Except PyError Bool := pwd_context_verify p h

/-- The salt passlib draws at random for each new hash, fixed here; its value
is irrelevant to every theorem below. -/
def defaultSalt : Str := ("abcdefghijklmnopqrstuv").toList

/-- Embeds crud.get_password_hash (crud.py:11-13). -/
def get_password_hash (p : Str) : Str := bcryptHashWith defaultSalt p

/- ===== Data model (models.py) ===== -/

/-- Embeds models.TaskStatus (models.py:9-12). -/
inductive TaskStatus
  | a_faire
  | en_cours
  | termine
deriving DecidableEq

/-- Embeds models.User (models.py:14-24); timestamps are integers. -/
structure User where
  id : Int
  username : Str
  email : Str
  hashed_password : Str
  created_at : Int
deriving DecidableEq

/-- Embeds models.PasswordResetToken (models.py:26-36). Note the column
holding the token value is named token_hash, not token. -/
structure ResetTokenRow where
  id : Int
  user_id : Int
  token_hash : Str
  expires_at : Int
  is_used : Bool
  created_at : Int
  used_at : Option Int
deriving DecidableEq

/-- Embeds models.Project (models.py:38-49). -/
structure Project where
  id : Int
  title : Str
  description : Option Str
  owner_id : Int
  created_at : Int
  updated_at : Int
deriving DecidableEq

/-- Embeds models.Task (models.py:51-64). -/
structure Task where
  id : Int
  title : Str
  description : Option Str
  completed : Bool
  project_id : Int
  status : TaskStatus
  due_date : Option Int
  created_at : Int
  updated_at : Int
deriving DecidableEq

/-- The relational store: one list per table, plus primary-key counters. -/
structure Db where
  users : List User
  password_reset_tokens : List ResetTokenRow
  projects : List Project
  tasks : List Task
  nextUserId : Int
  nextTokenId : Int
deriving DecidableEq

/- ===== ORM attribute surface of PasswordResetToken ===== -/

/-- The mapped attribute names of models.PasswordResetToken, exactly as
declared in models.py:30-36. -/
def passwordResetTokenAttrs : List String :=
  [("id"), ("user_id"), ("token_hash"), ("expires_at"), ("is_used"),
   ("created_at"), ("used_at")]

/-- Embeds SQLAlchemy class-attribute lookup used to build query filters
(models.PasswordResetToken.name): a name that is not a mapped attribute
raises AttributeError at query-construction time. -/
def resetTokenColumn (name : String) : Except PyError String :=
  if passwordResetTokenAttrs.contains name then .ok name else .error .attributeError

/-- Embeds the SQLAlchemy declarative constructor for PasswordResetToken:
a keyword argument that is not a mapped attribute raises TypeError and no
row is produced. -/
def ormNewPasswordResetToken (kwargs : List String) (row : ResetTokenRow) :
    Except PyError ResetTokenRow :=
  if kwargs.all (fun k => passwordResetTokenAttrs.contains k) then .ok row
  else .error .typeError

/-- Reads an integer-valued mapped column off a row; only reachable for
column references that resetTokenColumn has validated. -/
def rowIntAttr (r : ResetTokenRow) (c : String) : Int :=
  if c = ("id") then r.id
  else if c = ("user_id") then r.user_id
  else if c = ("expires_at") then r.expires_at
  else 0

/-- Reads a boolean-valued mapped column off a row; only reachable for
validated column references. -/
def rowBoolAttr (r : ResetTokenRow) (c : String) : Bool :=
  if c = ("is_used") then r.is_used else false

/-- Reads a string-valued mapped column off a row; only reachable for
validated column references (there is no mapped column named token). -/
def rowStrAttr (r : ResetTokenRow) (c : String) : Str :=
  if c = ("token_hash") then r.token_hash else []

/- ===== User lookups (crud.py:20-30) ===== -/

/-- Embeds crud.get_user_by_email (crud.py:20-22): first row matching. -/
def get_user_by_email (db : Db) (email : Str) : Option User :=
  db.users.find? (fun u => u.email == email)

/-- Embeds crud.get_user_by_username (crud.py:24-26). -/
def get_user_by_username (db : Db) (username : Str) : Option User :=
  db.users.find? (fun u => u.username == username)

/-- Embeds crud.get_user_by_id (crud.py:28-30). -/
def get_user_by_id (db : Db) (user_id : Int) : Option User :=
  db.users.find? (fun u => u.id == user_id)

/- ===== Reset-token CRUD (crud.py:68-123) ===== -/

/-- Embeds crud.get_valid_reset_token (crud.py:91-97). Building the query
filter evaluates the class attributes models.PasswordResetToken.token,
.is_used and .expires_at in order; the model maps no attribute named token,
so the first lookup raises AttributeError before any row is examined. -/
def get_valid_reset_token (db : Db) (tok : Str) (now : Int) :
    Except PyError (Option ResetTokenRow) := do
  let cTok ← resetTokenColumn ("token")
  let cUsed ← resetTokenColumn ("is_used")
  let cExp ← resetTokenColumn ("expires_at")
  .ok ((db.password_reset_tokens.filter (fun r =>
      rowStrAttr r cTok == tok && rowBoolAttr r cUsed == false &&
      decide (now < rowIntAttr r cExp))).head?)

/-- Embeds crud.create_password_reset_token (crud.py:68-89). The delete query
filters on the mapped columns user_id and is_used and succeeds (uncommitted);
expiry is now + 1 hour (crud.py:78); the constructor call
PasswordResetToken(token=..., user_id=..., expires_at=...) passes the unmapped
keyword token and raises TypeError (crud.py:81-85), after which the session
closes without commit and the pending delete is rolled back, so an error
leaves the store unchanged. The randomly generated secrets.token_urlsafe(32)
value is passed in as newTok. -/
def create_password_reset_token (db : Db) (user_id : Int) (now : Int)
    (newTok : Str) : Except PyError (Str × Db) := do
  let cUid ← resetTokenColumn ("user_id")
  let cUsed ← resetTokenColumn ("is_used")
  let pending : Db := { db with password_reset_tokens :=
      db.password_reset_tokens.filter (fun r =>
        !(rowIntAttr r cUid == user_id && rowBoolAttr r cUsed == false)) }
  let expires_at : Int := now + 3600
  let row ← ormNewPasswordResetToken [("token"), ("user_id"), ("expires_at")]
      { id := db.nextTokenId, user_id := user_id, token_hash := newTok,
        expires_at := expires_at, is_used := false, created_at := now,
        used_at := none }
  .ok (newTok, { pending with
      password_reset_tokens := pending.password_reset_tokens ++ [row],
      nextTokenId := db.nextTokenId + 1 })

/-- Embeds crud.use_reset_token (crud.py:99-123): re-validates, then updates
the password hash, marks the token used (used_at stays unset, crud.py:114),
deletes the user's other tokens, and commits; returns false without side
effects when validation fails. Any exception propagates. -/
def use_reset_token (db : Db) (tok : Str) (new_password : Str) (now : Int) :
    Except PyError (Bool × Db) := do
  let rt? ← get_valid_reset_token db tok now
  match rt? with
  | none => .ok (false, db)
  | some rt =>
    match get_user_by_id db rt.user_id with
    | none => .ok (false, db)
    | some user => do
      let cUid ← resetTokenColumn ("user_id")
      let cId ← resetTokenColumn ("id")
      let users2 := db.users.map (fun u =>
        if u.id == user.id then { u with hashed_password := get_password_hash new_password } else u)
      let toks2 := (db.password_reset_tokens.map (fun r =>
          if r.id == rt.id then { r with is_used := true } else r)).filter
        (fun r => !(rowIntAttr r cUid == user.id && !(rowIntAttr r cId == rt.id)))
      .ok (true, { db with users := users2, password_reset_tokens := toks2 })

/- ===== Session token codec and authentication gate (dependencies.py) ===== -/

/-- Embeds a decoded JWT claim set. The code only ever writes the claims sub,
exp and type; the wire format also admits an issued-at claim iat, which this
code never sets. The sub claim is written as str(user.id) and read back with
int(...), modelled directly as the carried integer. -/
structure JwtPayload where
  sub : Option Int
  exp : Option Int
  iat : Option Int
  typ : Option Str
deriving DecidableEq

/-- A signed token. The HMAC signature is modelled ideally (unforgeable): it
is the pair of the signing key and the signed claim set, so a signature
verifies exactly when it was produced with the same key over the same
payload. -/
structure SignedToken where
  payload : JwtPayload
  sig : String × JwtPayload
deriving DecidableEq

/-- dependencies.py:15. -/
def SECRET_KEY : String :=
  "09d25e094faa6ca2556c818166b7a9563b93f7099f6f0f4caa6cf63b88e8d3e7"

/-- dependencies.py:17. -/
def ACCESS_TOKEN_EXPIRE_MINUTES : Int := 180

/-- Ideal MAC over the claim set (HS256 in the source, dependencies.py:16). -/
def macSign (key : String) (p : JwtPayload) : String × JwtPayload := (key, p)

/-- Embeds jose jwt.encode(claims, key, HS256). -/
def jwt_encode (p : JwtPayload) (key : String) : SignedToken :=
  { payload := p, sig := macSign key p }

/-- The "type" discriminator value of refresh tokens (dependencies.py:183). -/
def refreshTag : Str := "refresh".toList

/-- Embeds dependencies.create_access_token (dependencies.py:30-46): copies
the data dict, sets exp to now plus the given delta (in seconds) or the
default of ACCESS_TOKEN_EXPIRE_MINUTES, and signs with SECRET_KEY. No other
claim (in particular no iat) is added. -/
def create_access_token (data : JwtPayload) (expires_delta : Option Int)
    (now : Int) : SignedToken :=
  let expire := now + (expires_delta.getD (ACCESS_TOKEN_EXPIRE_MINUTES * 60))
  jwt_encode { data with exp := some expire } SECRET_KEY

/-- Embeds dependencies.create_refresh_token (dependencies.py:180-184):
seven-day expiry and a "refresh" type claim. -/
def create_refresh_token (user_id : Int) (now : Int) : SignedToken :=
  jwt_encode { sub := some user_id, exp := some (now + 7 * 86400), iat := none,
               typ := some refreshTag } SECRET_KEY

/-- Result of dependencies.verify_token_expiry: either the debug dict carrying
exp and the is_expired flag, or the error dict ("cannot decode" / "no
expiration timestamp"), whose is_expired key is absent. -/
inductive ExpiryDebug
  | info (exp : Int) (is_expired : Bool)
  | errorInfo
deriving DecidableEq

/-- Embeds the call jose.jwt.decode(token, options={"verify_signature": False})
at dependencies.py:52. In python-jose, decode's key argument is a required
positional (the key-less options-only call is PyJWT's API, not jose's), so
this call raises TypeError before looking at the token at all. -/
def jwt_decode_no_key (_raw : Option SignedToken) : Except PyError JwtPayload :=
  .error .typeError

/-- Embeds dependencies.verify_token_expiry (dependencies.py:48-74): the try
body decodes without a key, reads the exp claim and computes
is_expired = current_time > exp_date; but the key-less decode raises
TypeError (see jwt_decode_no_key), the function's own except Exception
(dependencies.py:73-74) catches it, and the error dict — whose is_expired
key is absent — is returned for every input. The info branch mirrors the
source's try body and is dead code, exactly as in the program. A presented
token is an Option SignedToken, none standing for an unparsable string. -/
def verify_token_expiry (now : Int) (raw : Option SignedToken) : ExpiryDebug :=
  match jwt_decode_no_key raw with
  | .error _ => .errorInfo
  | .ok p =>
    match p.exp with
    | none => .errorInfo
    | some e => .info e (decide (e < now))

/-- Outcome of jose jwt.decode(token, key, algorithms=[HS256]). -/
inductive JoseResult
  | okPayload (p : JwtPayload)
  | expiredSignature
  | jwtError
deriving DecidableEq

/-- Embeds jose jwt.decode with signature verification (modelled from the
library the source calls at dependencies.py:107): an unparsable token or a
signature mismatch raises JWTError; a verified token whose exp claim is in
the past raises ExpiredSignatureError; otherwise the claim set is returned. -/
def jwt_decode (raw : Option SignedToken) (key : String) (now : Int) : JoseResult :=
  match raw with
  | none => .jwtError
  | some t =>
    if t.sig ≠ macSign key t.payload then .jwtError
    else
      match t.payload.exp with
      | some e => if e < now then .expiredSignature else .okPayload t.payload
      | none => .okPayload t.payload

/-- Terminal states of the authentication gate (the HTTPException branches of
dependencies.get_current_user); expiredToken carries the expired_at detail,
which is absent when the debug decode found no exp claim. -/
inductive GateResult
  | authenticated (u : User)
  | expiredToken (expired_at : Option Int)
  | invalidToken
  | missingSub
  | userNotFound
deriving DecidableEq

/-- Embeds dependencies.get_current_user (dependencies.py:76-178) after the
bearer-string normalization. The expiry pre-check (dependencies.py:92-104)
consults verify_token_expiry, but that helper always returns the error dict
(its key-less decode raises), so the pre-check never fires and classification
is done by the keyed jwt.decode — signature first, then expiry. The
ExpiredSignatureError handler re-queries verify_token_expiry for the
expired_at detail (dependencies.py:122-127), which is therefore always
absent; a JWTError yields the invalid-token rejection; then the sub claim is
required and the user resolved by id. The type claim is never consulted. -/
def get_current_user (now : Int) (raw : Option SignedToken) (db : Db) : GateResult :=
  match verify_token_expiry now raw with
  | .info e true => .expiredToken (some e)
  | _ =>
    match jwt_decode raw SECRET_KEY now with
    | .jwtError => .invalidToken
    | .expiredSignature =>
      match verify_token_expiry now raw with
      | .info e _ => .expiredToken (some e)
      | .errorInfo => .expiredToken none
    | .okPayload p =>
      match p.sub with
      | none => .missingSub
      | some uid =>
        match get_user_by_id db uid with
        | none => .userNotFound
        | some u => .authenticated u

/-- Outcome of dependencies.verify_refresh_token. -/
inductive RefreshResult
  | okUser (user_id : Int)
  | invalid
  | expired
deriving DecidableEq

/-- Embeds dependencies.verify_refresh_token (dependencies.py:186-209):
decodes with the signature, then requires a sub claim and type == "refresh". -/
def verify_refresh_token (now : Int) (raw : Option SignedToken) : RefreshResult :=
  match jwt_decode raw SECRET_KEY now with
  | .jwtError => .invalid
  | .expiredSignature => .expired
  | .okPayload p =>
    match p.sub, p.typ with
    | some uid, some ty => if ty == refreshTag then .okUser uid else .invalid
    | _, _ => .invalid

/-- The lowercase bearer marker compared against by the gate. -/
def bearerSp : Str := "bearer ".toList

/-- Embeds the token cleanup of dependencies.get_current_user
(dependencies.py:87-88): if the lower-cased credential starts with
"bearer " the first seven characters are removed, once. -/
def normalize_token (s : Str) : Str :=
  if listStartsWith bearerSp (lowerStr s) then s.drop 7 else s

/-- Modelled from the spec (routing layer): FastAPI's HTTPBearer splits the
Authorization header at the first space, requires the scheme to lower-case to
"bearer", and hands the remainder to get_current_user as the credential. -/
def header_credentials (h : Str) : Option Str :=
  let scheme := h.takeWhile (fun c => c ≠ ' ')
  let param := h.drop (scheme.length + 1)
  if scheme ≠ [] ∧ param ≠ [] ∧ lowerStr scheme = bearerSp.dropLast then some param
  else none

/- ===== Route handlers (main.py) ===== -/

/-- Embeds schemas.UserCreate (schemas.py:14-19): no constraint on password. -/
structure UserCreate where
  username : Str
  email : Str
  password : Str
deriving DecidableEq

/-- Embeds schemas.ResetPasswordRequest (schemas.py:36-38). -/
structure ResetPasswordRequest where
  token : Str
  new_password : Str
deriving DecidableEq

/-- Embeds crud.create_user (crud.py:32-43); created_at is set by the store. -/
def create_user (db : Db) (u : UserCreate) (now : Int) : User × Db :=
  let nu : User := { id := db.nextUserId, username := u.username,
                     email := u.email,
                     hashed_password := get_password_hash u.password,
                     created_at := now }
  (nu, { db with users := db.users ++ [nu], nextUserId := db.nextUserId + 1 })

/-- Embeds main.register_user (main.py:440-457): duplicate email, then
duplicate username, then creation; the password is never inspected. -/
def register_user (db : Db) (u : UserCreate) (now : Int) :
    Except HttpErr (User × Db) :=
  match get_user_by_email db u.email with
  | some _ => .error .dupEmail
  | none =>
    match get_user_by_username db u.username with
    | some _ => .error .dupUsername
    | none => .ok (create_user db u now)

/-- Embeds crud.authenticate_user (crud.py:45-50): none models the False
return; a verify exception propagates. -/
def authenticate_user (db : Db) (email pw : Str) : Except PyError (Option User) := do
  match get_user_by_email db email with
  | none => .ok none
  | some u => do
    let ok ← verify_password pw u.hashed_password
    .ok (if ok then some u else none)

/-- Embeds main.login_user (main.py:459-474): on success issues an access
token with data {"sub": str(user.id)} and an explicit 180-minute delta;
none models the 401 InvalidCredentials response. -/
def login_user (db : Db) (email pw : Str) (now : Int) :
    Except PyError (Option SignedToken) := do
  let u? ← authenticate_user db email pw
  match u? with
  | none => .ok none
  | some u =>
    .ok (some (create_access_token
      { sub := some u.id, exp := none, iat := none, typ := none }
      (some (ACCESS_TOKEN_EXPIRE_MINUTES * 60)) now))

/-- Embeds main.reset_password (main.py:362-417), the first-registered and
therefore effective handler for the route: password policy checks in source
order (length, lowercase, uppercase, digit), then crud.use_reset_token; a
false result maps to the invalid-token response and an exception to the
generic 500. -/
def reset_password (db : Db) (req : ResetPasswordRequest) (now : Int) :
    Except HttpErr Db :=
  if req.new_password.length < 8 then .error .policyTooShort
  else if !(has_lower req.new_password) then .error .policyNoLower
  else if !(has_upper req.new_password) then .error .policyNoUpper
  else if !(has_digit req.new_password) then .error .policyNoDigit
  else
    match use_reset_token db req.token req.new_password now with
    | .error _ => .error .serverError
    | .ok (false, _) => .error .invalidOrExpiredToken
    | .ok (true, db2) => .ok db2

/- ===== Project and task CRUD (crud.py:126-223, schemas.py:56-81) ===== -/

/-- Embeds schemas.ProjectUpdate (schemas.py:79-81) under
dict(exclude_unset=True): the outer Option is field presence in the request;
for the nullable description column the inner Option is the sent value. An
explicit JSON null for title is not modelled (not exercised by any claim). -/
structure ProjectUpdate where
  title : Option Str
  description : Option (Option Str)
deriving DecidableEq

/-- Embeds schemas.TaskUpdate (schemas.py:56-60) under exclude_unset, with
the same conventions as ProjectUpdate. -/
structure TaskUpdate where
  title : Option Str
  description : Option (Option Str)
  due_date : Option (Option Int)
  status : Option TaskStatus
deriving DecidableEq

/-- Embeds crud.get_project_by_id (crud.py:130-135): ownership-scoped. -/
def get_project_by_id (db : Db) (project_id : Int) (user_id : Int) : Option Project :=
  db.projects.find? (fun p => p.id == project_id && p.owner_id == user_id)

/-- Embeds crud.get_task_by_id (crud.py:179-184): joins via the owning
project to enforce ownership. -/
def get_task_by_id (db : Db) (task_id : Int) (user_id : Int) : Option Task :=
  db.tasks.find? (fun t => t.id == task_id &&
    db.projects.any (fun p => p.id == t.project_id && p.owner_id == user_id))

/-- True when at least one explicitly sent field differs from the stored
value: SQLAlchemy's flush compares each assigned attribute with its committed
value and emits an UPDATE only on a net change. -/
def projectChanges (p : Project) (u : ProjectUpdate) : Bool :=
  (match u.title with | some t => t != p.title | none => false) ||
  (match u.description with | some d => d != p.description | none => false)

/-- The row after the setattr loop of crud.update_project (crud.py:153-155)
and the commit: sent fields overwrite, and the updated_at column's
onupdate=func.now() (models.py:46) stamps the row whenever an UPDATE is
emitted. -/
def applyProjectUpdate (p : Project) (u : ProjectUpdate) (now : Int) : Project :=
  { p with
    title := u.title.getD p.title,
    description := (match u.description with | some d => d | none => p.description),
    updated_at := if projectChanges p u then now else p.updated_at }

/-- Embeds crud.update_project (crud.py:147-159): None (and no change) when
the project is absent or foreign-owned, otherwise the refreshed row and the
store with that row replaced. -/
def update_project (db : Db) (project_id : Int) (u : ProjectUpdate)
    (user_id : Int) (now : Int) : Option Project × Db :=
  match get_project_by_id db project_id user_id with
  | none => (none, db)
  | some p =>
    let p2 := applyProjectUpdate p u now
    (some p2, { db with projects := db.projects.map (fun q =>
        if q.id == p.id then p2 else q) })

/-- Net-change test for tasks, as for projectChanges. -/
def taskChanges (t : Task) (u : TaskUpdate) : Bool :=
  (match u.title with | some s => s != t.title | none => false) ||
  (match u.description with | some d => d != t.description | none => false) ||
  (match u.due_date with | some d => d != t.due_date | none => false) ||
  (match u.status with | some s => s != t.status | none => false)

/-- The row after the setattr loop of crud.update_task (crud.py:207-209) and
the commit, with updated_at stamped on a net change (models.py:62). -/
def applyTaskUpdate (t : Task) (u : TaskUpdate) (now : Int) : Task :=
  { t with
    title := u.title.getD t.title,
    description := (match u.description with | some d => d | none => t.description),
    due_date := (match u.due_date with | some d => d | none => t.due_date),
    status := u.status.getD t.status,
    updated_at := if taskChanges t u then now else t.updated_at }

/-- Embeds crud.update_task (crud.py:201-213). -/
def update_task (db : Db) (task_id : Int) (u : TaskUpdate) (user_id : Int)
    (now : Int) : Option Task × Db :=
  match get_task_by_id db task_id user_id with
  | none => (none, db)
  | some t =>
    let t2 := applyTaskUpdate t u now
    (some t2, { db with tasks := db.tasks.map (fun s =>
        if s.id == t.id then t2 else s) })

/- ===== Concrete stores and tokens used by the witnesses ===== -/

/-- A registered user whose password is Passw0rd. -/
def sampleUser : User :=
  { id := 1, username := "alice".toList, email := "alice@x.com".toList,
    hashed_password := get_password_hash ("Passw0rd".toList), created_at := 0 }

/-- A stored reset-token row that is unused and, at times before 4600, not
yet expired: exactly the shape the first consume call of the claims is
about. -/
def sampleRow : ResetTokenRow :=
  { id := 1, user_id := 1, token_hash := "tok123".toList, expires_at := 4600,
    is_used := false, created_at := 1000, used_at := none }

def emptyDb : Db :=
  { users := [], password_reset_tokens := [], projects := [], tasks := [],
    nextUserId := 1, nextTokenId := 1 }

def sampleDb : Db :=
  { users := [sampleUser], password_reset_tokens := [sampleRow],
    projects := [], tasks := [], nextUserId := 2, nextTokenId := 2 }

/-- A well-formed but unsigned-by-the-server token: its exp claim lies in the
past of time 200 and its signature was produced with a different key. -/
def tamperedPayload : JwtPayload :=
  { sub := some 1, exp := some 100, iat := none, typ := none }

def tamperedToken : SignedToken :=
  { payload := tamperedPayload, sig := ("evil", tamperedPayload) }

/-- A token correctly signed by the server whose expiry instant (100) lies in
the past of time 200. -/
def expiredSignedToken : SignedToken :=
  jwt_encode { sub := some 1, exp := some 100, iat := none, typ := none }
    SECRET_KEY

/-- The access token the login route issues at time 1000 for user 1. -/
def accessTok1 : SignedToken :=
  create_access_token { sub := some 1, exp := none, iat := none, typ := none }
    (some (ACCESS_TOKEN_EXPIRE_MINUTES * 60)) 1000

/-- A stored project used by the update-frame counterexample. -/
def proj10 : Project :=
  { id := 1, title := "old".toList, description := none, owner_id := 1,
    created_at := 0, updated_at := 5 }

def db10 : Db :=
  { users := [sampleUser], password_reset_tokens := [], projects := [proj10],
    tasks := [], nextUserId := 2, nextTokenId := 1 }

/-- An update payload sending only the title. -/
def upd10 : ProjectUpdate := { title := some ("new".toList), description := none }

/- ===== Evaluation theorems on concrete inputs ===== -/

/-- C1: on a store holding an unused, unexpired reset-token row bound to an
existing user, consuming that token does not return success and does not
return false either — building the validation query evaluates the unmapped
class attribute PasswordResetToken.token and raises AttributeError, so the
first call on a valid token already fails. -/
theorem C1_use_reset_token_raises :
    use_reset_token sampleDb ("tok123".toList) ("NewPass1".toList) 2000 =
      Except.error PyError.attributeError := by
  decide

/-- C2: issuing a reset token crashes before persisting anything: the
constructor PasswordResetToken(token=..., ...) passes the unmapped keyword
token and raises TypeError, so no second token can ever be issued and the
claimed at-most-one-unused-token state is never reached. -/
theorem C2_create_reset_token_raises :
    create_password_reset_token sampleDb 1 2000 ("second".toList) =
      Except.error PyError.typeError := by
  decide

/-- C3: the issue-at-T0, validate-at-T0+59min/T0+61min scenario cannot run:
issuing at T0 = 1000 raises TypeError, and validating a stored token raises
AttributeError at both probe times instead of distinguishing them. -/
theorem C3_reset_window_unrealizable :
    create_password_reset_token sampleDb 1 1000 ("freshtok".toList) =
        Except.error PyError.typeError ∧
    get_valid_reset_token sampleDb ("tok123".toList) 4540 =
        Except.error PyError.attributeError ∧
    get_valid_reset_token sampleDb ("tok123".toList) 4660 =
        Except.error PyError.attributeError := by
  refine ⟨by decide, by decide, by decide⟩

/-- C4 counterexample: a validly signed token whose exp claim (100) is past
at time 200 is rejected as ExpiredToken, but the expired_at detail it
carries is None, not the expiry instant: the debug decode that should supply
it fails on every input (python-jose's decode demands the key argument), so
the claimed diagnostic is never attached. -/
theorem C4_cex_expired_detail_absent :
    expiredSignedToken.sig = macSign SECRET_KEY expiredSignedToken.payload ∧
    get_current_user 200 (some expiredSignedToken) emptyDb =
      GateResult.expiredToken none ∧
    get_current_user 200 (some expiredSignedToken) emptyDb ≠
      GateResult.expiredToken (some 100) := by
  refine ⟨by decide, by decide, by decide⟩

/-- C5 counterexample: a freshly issued, unexpired refresh token for the
existing user 1, presented to the authentication gate, is accepted and yields
Authenticated — the gate never reads the type discriminator. -/
theorem C5_cex_refresh_token_authenticates :
    (create_refresh_token 1 1000).payload.typ = some refreshTag ∧
    get_current_user 1000 (some (create_refresh_token 1 1000)) sampleDb =
      GateResult.authenticated sampleUser := by
  refine ⟨by decide, by decide⟩

/-- C6 counterexample: the access token issued by a successful login carries
only the subject and expiry claims; its payload has no issued-at claim, so
the decoded token cannot report expiresAt - issuedAt. -/
theorem C6_cex_no_issued_at_claim :
    login_user sampleDb ("alice@x.com".toList) ("Passw0rd".toList) 1000 =
        Except.ok (some accessTok1) ∧
    accessTok1.payload.iat = none ∧
    accessTok1.payload.sub = some 1 ∧
    accessTok1.payload.exp = some 11800 := by
  refine ⟨by decide, by decide, by decide, by decide⟩

/-- C8 counterexample: verifying any password against the malformed hash
string "nothash" raises passlib's UnknownHashError, which escapes
crud.verify_password (it has no handler); it does not report false. -/
theorem C8_cex_malformed_hash_raises :
    verify_password ("pw".toList) ("nothash".toList) =
        Except.error PyError.unknownHashError ∧
    verify_password ("pw".toList) ("nothash".toList) ≠ Except.ok false := by
  refine ⟨by decide, by decide⟩

/-- C10 counterexample: updating only the title of a stored project also
rewrites its updated_at column (the onupdate stamp), so a field absent from
the payload does not keep its prior value. -/
theorem C10_cex_updated_at_changes :
    ((update_project db10 1 upd10 1 99).1.map Project.updated_at) = some 99 ∧
    ((update_project db10 1 upd10 1 99).1.map Project.updated_at) ≠
      some proj10.updated_at := by
  refine ⟨by decide, by decide⟩

/- ===== Helper lemmas about the authentication gate ===== -/

theorem gate_none_invalid (now : Int) (db : Db) :
    get_current_user now none db = GateResult.invalidToken := rfl

theorem gate_tampered_invalid (now : Int) (db : Db) (t : SignedToken)
    (hs : t.sig ≠ macSign SECRET_KEY t.payload) :
    get_current_user now (some t) db = GateResult.invalidToken := by
  simp only [get_current_user, verify_token_expiry, jwt_decode_no_key,
    jwt_decode, if_pos hs]

theorem gate_signed_expired (now : Int) (db : Db) (t : SignedToken) (e : Int)
    (hs : t.sig = macSign SECRET_KEY t.payload)
    (he : t.payload.exp = some e) (hlt : e < now) :
    get_current_user now (some t) db = GateResult.expiredToken none := by
  simp only [get_current_user, verify_token_expiry, jwt_decode_no_key,
    jwt_decode, he, if_neg (not_not_intro hs), if_pos hlt]

theorem gate_valid_auth (now : Int) (db : Db) (t : SignedToken) (e uid : Int)
    (u : User) (hs : t.sig = macSign SECRET_KEY t.payload)
    (he : t.payload.exp = some e) (hge : ¬ e < now)
    (hsub : t.payload.sub = some uid) (hu : get_user_by_id db uid = some u) :
    get_current_user now (some t) db = GateResult.authenticated u := by
  simp only [get_current_user, verify_token_expiry, jwt_decode_no_key,
    jwt_decode, he, hsub, hu, if_neg (not_not_intro hs), if_neg hge]

theorem gate_valid_no_user (now : Int) (db : Db) (t : SignedToken) (e uid : Int)
    (hs : t.sig = macSign SECRET_KEY t.payload)
    (he : t.payload.exp = some e) (hge : ¬ e < now)
    (hsub : t.payload.sub = some uid) (hu : get_user_by_id db uid = none) :
    get_current_user now (some t) db = GateResult.userNotFound := by
  simp only [get_current_user, verify_token_expiry, jwt_decode_no_key,
    jwt_decode, he, hsub, hu, if_neg (not_not_intro hs), if_neg hge]

/- ===== Claim theorems ===== -/

/-- Claim C4 (amended): the gate classifies signature-first — the expiry
pre-check through the unverified debug decode is dead code, since
verify_token_expiry always returns its error dict. A malformed token or one
with an invalid signature is rejected as InvalidToken, whatever its exp
claim (so an unsigned or tampered token is never classified as
ExpiredToken); a validly signed but expired token is rejected as
ExpiredToken, though the expired_at diagnostic it carries is always None
rather than the expiry instant; and a validly signed, unexpired token with a
subject proceeds to user resolution (Authenticated when the user exists,
UserNotFound otherwise). -/
theorem C4_gate_classification :
    (∀ now db, get_current_user now none db = GateResult.invalidToken) ∧
    (∀ now db (t : SignedToken), t.sig ≠ macSign SECRET_KEY t.payload →
        get_current_user now (some t) db = GateResult.invalidToken) ∧
    (∀ now db (t : SignedToken) (e : Int),
        t.sig = macSign SECRET_KEY t.payload → t.payload.exp = some e →
        e < now →
        get_current_user now (some t) db = GateResult.expiredToken none) ∧
    (∀ now db (t : SignedToken) (e uid : Int) (u : User),
        t.sig = macSign SECRET_KEY t.payload → t.payload.exp = some e →
        ¬ e < now → t.payload.sub = some uid → get_user_by_id db uid = some u →
        get_current_user now (some t) db = GateResult.authenticated u) ∧
    (∀ now db (t : SignedToken) (e uid : Int),
        t.sig = macSign SECRET_KEY t.payload → t.payload.exp = some e →
        ¬ e < now → t.payload.sub = some uid → get_user_by_id db uid = none →
        get_current_user now (some t) db = GateResult.userNotFound) := by
  refine ⟨gate_none_invalid, ?_, ?_, ?_, ?_⟩
  · intro now db t hs
    exact gate_tampered_invalid now db t hs
  · intro now db t e hs he hlt
    exact gate_signed_expired now db t e hs he hlt
  · intro now db t e uid u hs he hge hsub hu
    exact gate_valid_auth now db t e uid u hs he hge hsub hu
  · intro now db t e uid hs he hge hsub hu
    exact gate_valid_no_user now db t e uid hs he hge hsub hu

/-- Witness for C4: the tampered token — whose exp claim (100) is already
past at time 200 — is rejected as InvalidToken, never as ExpiredToken. -/
theorem C4_gate_classification_witness :
    get_current_user 200 (some tamperedToken) emptyDb =
      GateResult.invalidToken :=
  C4_gate_classification.2.1 200 emptyDb tamperedToken (by decide)

/-- Claim C5 (amended): every refresh token carries the "refresh" type
discriminator, and verify_refresh_token rejects a validly decoded token whose
type is not "refresh"; but get_current_user never reads the discriminator, so
an unexpired refresh token presented as an access token is ACCEPTED by the
authentication gate whenever its subject user exists. -/
theorem C5_refresh_type_unchecked :
    (∀ uid now, (create_refresh_token uid now).payload.typ = some refreshTag) ∧
    (∀ now raw p, jwt_decode raw SECRET_KEY now = JoseResult.okPayload p →
        p.typ ≠ some refreshTag →
        verify_refresh_token now raw = RefreshResult.invalid) ∧
    (∀ uid now db u, get_user_by_id db uid = some u →
        get_current_user now (some (create_refresh_token uid now)) db =
          GateResult.authenticated u) := by
  refine ⟨fun uid now => rfl, ?_, ?_⟩
  · intro now raw p hdec hne
    obtain ⟨sub, exp, iat, typ⟩ := p
    simp only [verify_refresh_token, hdec]
    cases sub with
    | none => cases typ <;> rfl
    | some uid =>
      cases typ with
      | none => rfl
      | some ty =>
        have hty : ¬ ty = refreshTag := by
          intro hcontra
          exact hne (by simp [hcontra])
        simp [hty]
  · intro uid now db u hu
    exact gate_valid_auth now db (create_refresh_token uid now)
      (now + 7 * 86400) uid u rfl rfl (by omega) rfl hu

/-- Witness for C5: at time 1000 the refresh token for user 1 is accepted by
the gate against the sample store, and a non-refresh payload is rejected by
verify_refresh_token. -/
theorem C5_refresh_type_unchecked_witness :
    get_current_user 1000 (some (create_refresh_token 1 1000)) sampleDb =
      GateResult.authenticated sampleUser ∧
    verify_refresh_token 50 (some accessTok1) = RefreshResult.invalid :=
  ⟨C5_refresh_type_unchecked.2.2 1 1000 sampleDb sampleUser (by decide),
   C5_refresh_type_unchecked.2.1 50 (some accessTok1) accessTok1.payload
     (by decide) (by decide)⟩

/-- Claim C6 (amended): a freshly issued access token's payload contains
subject = the user id and expires-at = issuance time + TTL (with the
180-minute default when no delta is passed), and it validates successfully
immediately after issuance; but the payload carries NO issued-at claim — only
sub and exp are encoded — so the token does not report
expiresAt - issuedAt. -/
theorem C6_access_token_payload :
    (∀ data now, (create_access_token data none now).payload.exp =
        some (now + 10800)) ∧
    (∀ uid delta now,
        (create_access_token
            { sub := some uid, exp := none, iat := none, typ := none }
            (some delta) now).payload =
          { sub := some uid, exp := some (now + delta), iat := none,
            typ := none }) ∧
    (∀ uid delta now db u, 0 ≤ delta → get_user_by_id db uid = some u →
        get_current_user now
          (some (create_access_token
            { sub := some uid, exp := none, iat := none, typ := none }
            (some delta) now)) db = GateResult.authenticated u) := by
  refine ⟨?_, fun uid delta now => rfl, ?_⟩
  · intro data now
    show some (now + ACCESS_TOKEN_EXPIRE_MINUTES * 60) = some (now + 10800)
    norm_num [ACCESS_TOKEN_EXPIRE_MINUTES]
  · intro uid delta now db u hd hu
    exact gate_valid_auth now db _ (now + delta) uid u rfl rfl (by omega) rfl hu

/-- Witness for C6: the login-issued token accessTok1 (user 1, time 1000,
180-minute delta) has exp 11800 and authenticates immediately against the
sample store; the default-delta branch evaluates at a concrete payload. -/
theorem C6_access_token_payload_witness :
    (create_access_token tamperedPayload none 0).payload.exp = some 10800 ∧
    get_current_user 1000 (some accessTok1) sampleDb =
      GateResult.authenticated sampleUser :=
  ⟨C6_access_token_payload.1 tamperedPayload 0,
   C6_access_token_payload.2.2 1 10800 1000 sampleDb sampleUser (by decide)
     (by decide)⟩

theorem listStartsWith_self_append (p t : Str) :
    listStartsWith p (p ++ t) = true := by
  induction p with
  | nil => rfl
  | cons c ps ih => simp [listStartsWith, ih]

theorem drop_len_append (l₁ l₂ : Str) : (l₁ ++ l₂).drop l₁.length = l₂ := by
  induction l₁ with
  | nil => rfl
  | cons c cs ih => simp [ih]

/-- Claim C7: the gate's normalization strips one optional case-insensitive
"Bearer " layer: prepending the marker in any letter case to a credential
that does not itself start with the marker decodes to that credential, a
marker-free credential is left alone, and the header value
"Bearer Bearer abc.def.ghi" — scheme split by the routing layer, one more
layer stripped by the gate — is normalized to "abc.def.ghi" before decode. -/
theorem C7_bearer_normalization :
    (∀ pfx s, lowerStr pfx = bearerSp →
        listStartsWith bearerSp (lowerStr s) = false →
        normalize_token (pfx ++ s) = s ∧ normalize_token s = s) ∧
    header_credentials (("Bearer Bearer abc.def.ghi").toList) =
        some (("Bearer abc.def.ghi").toList) ∧
    normalize_token (("Bearer abc.def.ghi").toList) =
      ("abc.def.ghi").toList := by
  refine ⟨?_, by decide, by decide⟩
  intro pfx s h1 h2
  have hlen : pfx.length = 7 := by
    have hc := congrArg List.length h1
    simp only [lowerStr, List.length_map] at hc
    rw [hc]
    decide
  constructor
  · have hcond : listStartsWith bearerSp (lowerStr (pfx ++ s)) = true := by
      simp only [lowerStr, List.map_append]
      rw [show pfx.map asciiLower = bearerSp from h1]
      exact listStartsWith_self_append bearerSp (s.map asciiLower)
    rw [normalize_token, if_pos hcond,
      show (7 : Nat) = pfx.length from hlen.symm, drop_len_append]
  · rw [normalize_token, if_neg (by simp [h2])]

/-- Witness for C7: a mixed-case marker prepended to a marker-free credential
is stripped exactly once. -/
theorem C7_bearer_normalization_witness :
    normalize_token (("BeArEr ").toList ++ ("abc.def.ghi").toList) =
        ("abc.def.ghi").toList ∧
    normalize_token (("abc.def.ghi").toList) = ("abc.def.ghi").toList :=
  C7_bearer_normalization.1 (("BeArEr ").toList) (("abc.def.ghi").toList)
    (by decide) (by decide)

/-- Claim C8 (amended): a hash string the bcrypt handler cannot identify makes
verify raise UnknownHashError, and the exception escapes verify_password (it
has no handler) — it is not reported as a false return; only an identifiable
bcrypt hash yields a boolean verification result. -/
theorem C8_verify_password_behavior :
    (∀ p h, bcryptIdentify h = false →
        verify_password p h = Except.error PyError.unknownHashError) ∧
    (∀ p h, bcryptIdentify h = true →
        verify_password p h = Except.ok (bcryptVerify p h)) := by
  constructor
  · intro p h hid
    simp [verify_password, pwd_context_verify, hid]
  · intro p h hid
    simp [verify_password, pwd_context_verify, hid]

/-- Witness for C8: the unidentifiable hash "badformat" raises, and a real
hash of Passw0rd verifies to true. -/
theorem C8_verify_password_behavior_witness :
    verify_password ("pw".toList) ("badformat".toList) =
        Except.error PyError.unknownHashError ∧
    verify_password ("Passw0rd".toList)
        (get_password_hash ("Passw0rd".toList)) = Except.ok true := by
  refine ⟨C8_verify_password_behavior.1 ("pw".toList) ("badformat".toList)
    (by decide), ?_⟩
  have hh := C8_verify_password_behavior.2 ("Passw0rd".toList)
    (get_password_hash ("Passw0rd".toList)) (by decide)
  rw [hh]
  decide

/-- Claim C9: registration applies no password policy at all — with a free
email and username, register_user creates the user whatever the password
(including the empty password, covered by the witness) — while the
reset-password route enforces minimum length 8 and the lowercase, uppercase
and digit character classes, in that order. -/
theorem C9_registration_no_password_policy :
    (∀ db u now, get_user_by_email db u.email = none →
        get_user_by_username db u.username = none →
        ∃ nu db2, register_user db u now = Except.ok (nu, db2) ∧
          nu.username = u.username ∧ nu.email = u.email) ∧
    (∀ db req now, req.new_password.length < 8 →
        reset_password db req now = Except.error HttpErr.policyTooShort) ∧
    (∀ db req now, ¬ req.new_password.length < 8 →
        has_lower req.new_password = false →
        reset_password db req now = Except.error HttpErr.policyNoLower) ∧
    (∀ db req now, ¬ req.new_password.length < 8 →
        has_lower req.new_password = true →
        has_upper req.new_password = false →
        reset_password db req now = Except.error HttpErr.policyNoUpper) ∧
    (∀ db req now, ¬ req.new_password.length < 8 →
        has_lower req.new_password = true →
        has_upper req.new_password = true →
        has_digit req.new_password = false →
        reset_password db req now = Except.error HttpErr.policyNoDigit) := by
  refine ⟨?_, ?_, ?_, ?_, ?_⟩
  · intro db u now h1 h2
    refine ⟨(create_user db u now).1, (create_user db u now).2, ?_, rfl, rfl⟩
    simp [register_user, h1, h2]
  · intro db req now h
    simp [reset_password, h]
  · intro db req now h hl
    simp [reset_password, h, hl]
  · intro db req now h hl hu
    simp [reset_password, h, hl, hu]
  · intro db req now h hl hu hd
    simp [reset_password, h, hl, hu, hd]

/-- The registration request with an empty password used by the C9 witness. -/
def userCreateEmptyPw : UserCreate :=
  { username := "bob".toList, email := "bob@x.com".toList, password := [] }

/-- Witness for C9: the empty password is accepted at registration, and a
7-character password is rejected on the reset path. -/
theorem C9_registration_no_password_policy_witness :
    (∃ nu db2, register_user emptyDb userCreateEmptyPw 0 =
        Except.ok (nu, db2) ∧ nu.username = userCreateEmptyPw.username ∧
        nu.email = userCreateEmptyPw.email) ∧
    reset_password emptyDb
        { token := ("t").toList, new_password := ("Pass1xy").toList } 0 =
      Except.error HttpErr.policyTooShort :=
  ⟨C9_registration_no_password_policy.1 emptyDb userCreateEmptyPw 0
      (by decide) (by decide),
   C9_registration_no_password_policy.2.1 emptyDb
      { token := ("t").toList, new_password := ("Pass1xy").toList } 0
      (by decide)⟩

/-- Claim C10 (amended): updating a project or task modifies only the fields
explicitly present in the payload plus the store-managed updated_at column,
which is stamped with the current time exactly when some sent field makes a
net change; id, owner_id (resp. project_id), created_at, completed and every
absent payload field keep their prior values, other rows and other tables are
untouched, and a nonexistent or foreign-owned target returns None and changes
nothing. -/
theorem C10_update_frame :
    (∀ db pid uid u now, get_project_by_id db pid uid = none →
        update_project db pid u uid now = (none, db)) ∧
    (∀ db pid uid u now p, get_project_by_id db pid uid = some p →
        (update_project db pid u uid now).1 =
            some (applyProjectUpdate p u now) ∧
        (applyProjectUpdate p u now).id = p.id ∧
        (applyProjectUpdate p u now).owner_id = p.owner_id ∧
        (applyProjectUpdate p u now).created_at = p.created_at ∧
        (u.title = none → (applyProjectUpdate p u now).title = p.title) ∧
        (u.description = none →
            (applyProjectUpdate p u now).description = p.description) ∧
        (applyProjectUpdate p u now).updated_at =
            (if projectChanges p u then now else p.updated_at) ∧
        (update_project db pid u uid now).2.users = db.users ∧
        (update_project db pid u uid now).2.tasks = db.tasks ∧
        (update_project db pid u uid now).2.password_reset_tokens =
            db.password_reset_tokens ∧
        (∀ q, q ∈ db.projects → ¬ q.id = p.id →
            q ∈ (update_project db pid u uid now).2.projects)) ∧
    (∀ db tid uid u now, get_task_by_id db tid uid = none →
        update_task db tid u uid now = (none, db)) ∧
    (∀ db tid uid u now t, get_task_by_id db tid uid = some t →
        (update_task db tid u uid now).1 = some (applyTaskUpdate t u now) ∧
        (applyTaskUpdate t u now).id = t.id ∧
        (applyTaskUpdate t u now).project_id = t.project_id ∧
        (applyTaskUpdate t u now).created_at = t.created_at ∧
        (applyTaskUpdate t u now).completed = t.completed ∧
        (u.title = none → (applyTaskUpdate t u now).title = t.title) ∧
        (u.description = none →
            (applyTaskUpdate t u now).description = t.description) ∧
        (u.due_date = none →
            (applyTaskUpdate t u now).due_date = t.due_date) ∧
        (u.status = none → (applyTaskUpdate t u now).status = t.status) ∧
        (applyTaskUpdate t u now).updated_at =
            (if taskChanges t u then now else t.updated_at) ∧
        (update_task db tid u uid now).2.users = db.users ∧
        (update_task db tid u uid now).2.projects = db.projects ∧
        (update_task db tid u uid now).2.password_reset_tokens =
            db.password_reset_tokens ∧
        (∀ s, s ∈ db.tasks → ¬ s.id = t.id →
            s ∈ (update_task db tid u uid now).2.tasks)) := by
  refine ⟨?_, ?_, ?_, ?_⟩
  · intro db pid uid u now h
    simp [update_project, h]
  · intro db pid uid u now p hp
    refine ⟨by simp [update_project, hp], rfl, rfl, rfl, ?_, ?_, rfl,
      by simp [update_project, hp], by simp [update_project, hp],
      by simp [update_project, hp], ?_⟩
    · intro ht
      simp [applyProjectUpdate, ht]
    · intro hd
      simp [applyProjectUpdate, hd]
    · intro q hq hne
      simp only [update_project, hp, List.mem_map]
      exact ⟨q, hq, by rw [if_neg (by simp [hne])]⟩
  · intro db tid uid u now h
    simp [update_task, h]
  · intro db tid uid u now t ht
    refine ⟨by simp [update_task, ht], rfl, rfl, rfl, rfl, ?_, ?_, ?_, ?_, rfl,
      by simp [update_task, ht], by simp [update_task, ht],
      by simp [update_task, ht], ?_⟩
    · intro hx
      simp [applyTaskUpdate, hx]
    · intro hx
      simp [applyTaskUpdate, hx]
    · intro hx
      simp [applyTaskUpdate, hx]
    · intro hx
      simp [applyTaskUpdate, hx]
    · intro s hs hne
      simp only [update_task, ht, List.mem_map]
      exact ⟨s, hs, by rw [if_neg (by simp [hne])]⟩

/-- Witness for C10: the sample update on the sample store returns the
refreshed row and leaves the user table untouched. -/
theorem C10_update_frame_witness :
    (update_project db10 1 upd10 1 99).1 =
        some (applyProjectUpdate proj10 upd10 99) ∧
    (update_project db10 1 upd10 1 99).2.users = db10.users := by
  have h := C10_update_frame.2.1 db10 1 1 upd10 99 proj10 (by decide)
  exact ⟨h.1, h.2.2.2.2.2.2.2.1⟩

end GestionProjet
